import Mathlib

/-!
Verification of the Window-Go terminal widget toolkit.

Each Go function named below is embedded as a Lean definition translated
from its source; machine integers are modelled as `Int` (Go `int` never
overflows in the ranges these widgets use), Go strings as `List Char`
(rune sequences, matching the code's `[]rune` indexing), and callbacks as
stored data.  Theorems settle the behavioural claims about the toolkit.
-/

namespace WindowGo

/-! ## Focus chain (`Window.setFocus`, src/ui/gui/window.go)

A window's focus chain is an ordered list of distinct focusable elements;
for these claims only each element's `IsActive` flag matters (the
`setFocus` type switch sets exactly that flag on every element kind, plus
menu/prompt-internal state that does not touch any other element's flag).
`AddElement` never adds the same element twice, so the flags are
independent booleans. -/

structure FocusState where
  chain : List Bool
  focusedIndex : Int
  deriving Repr, DecidableEq

/-- `Window.setFocus` (window.go lines 426-490): deactivate the currently
focused element if its index is in range, wrap the requested index
(negative to `length-1`, `≥ length` to `0`), activate the new element. -/
def setFocus (s : FocusState) (newIndex : Int) : FocusState :=
  if s.chain.length = 0 then
    { s with focusedIndex := -1 }
  else
    let n : Int := s.chain.length
    let chain1 : List Bool :=
      if 0 ≤ s.focusedIndex ∧ s.focusedIndex < n then
        s.chain.set s.focusedIndex.toNat false
      else s.chain
    let j : Int := if newIndex < 0 then n - 1 else if n ≤ newIndex then 0 else newIndex
    { chain := chain1.set j.toNat true, focusedIndex := j }

/-- The window state at the moment its focus chain first becomes
non-empty: `AddElement` appends the elements inactive and then runs
`setFocus 0` (window.go lines 137-146). -/
def initialFocusState (n : Nat) : FocusState :=
  setFocus { chain := List.replicate n false, focusedIndex := -1 } 0

/-- Internal representation invariant: the chain is all-false except a
single `true` at the focused index, which is in range. -/
def FocusRep (s : FocusState) (n : Nat) : Prop :=
  s.chain = (List.replicate n false).set s.focusedIndex.toNat true ∧
    0 ≤ s.focusedIndex ∧ s.focusedIndex < n ∧ s.chain.length = n

lemma set_replicate_false (n i : Nat) :
    (List.replicate n false).set i false = List.replicate n false := by
  induction n generalizing i with
  | zero => simp
  | succ m ih =>
    cases i with
    | zero => simp [List.replicate_succ]
    | succ k => simp [List.replicate_succ, ih]

lemma count_set_true (n j : Nat) (h : j < n) :
    ((List.replicate n false).set j true).count true = 1 := by
  induction n generalizing j with
  | zero => omega
  | succ m ih =>
    cases j with
    | zero => simp [List.replicate_succ, List.count_replicate]
    | succ k =>
      have hk : k < m := by omega
      simp [List.replicate_succ, List.count_cons, ih k hk]

lemma focusRep_initial (n : Nat) (hn : 0 < n) : FocusRep (initialFocusState n) n := by
  unfold initialFocusState setFocus
  have hlen : (List.replicate n false).length = n := List.length_replicate ..
  simp only [hlen]
  have hne : ¬ n = 0 := by omega
  simp only [hne, if_false]
  refine ⟨?_, ?_, ?_, ?_⟩ <;>
    simp [hne, show ¬ ((0:Int) ≤ -1 ∧ (-1:Int) < n) by omega,
      show ¬ ((n:Int) ≤ 0) by omega, Int.toNat_zero] <;> omega

lemma focusRep_setFocus (s : FocusState) (n : Nat) (hn : 0 < n)
    (h : FocusRep s n) (k : Int) : FocusRep (setFocus s k) n := by
  obtain ⟨hchain, h0, hlt, hlen⟩ := h
  unfold setFocus
  simp only [hlen]
  have hne : ¬ n = 0 := by omega
  simp only [hne, if_false]
  have hcond : (0 ≤ s.focusedIndex ∧ s.focusedIndex < (n:Int)) := ⟨h0, hlt⟩
  simp only [if_pos hcond]
  have hchain1 : s.chain.set s.focusedIndex.toNat false = List.replicate n false := by
    rw [hchain, List.set_set, set_replicate_false]
  set j : Int := if k < 0 then (n:Int) - 1 else if (n:Int) ≤ k then 0 else k with hj
  have hjrange : 0 ≤ j ∧ j < n := by
    rw [hj]; split
    · omega
    · split <;> omega
  refine ⟨by rw [hchain1], hjrange.1, hjrange.2, ?_⟩
  rw [List.length_set, hchain1, List.length_replicate]

lemma focusRep_foldl (n : Nat) (hn : 0 < n) (calls : List Int) (s : FocusState)
    (h : FocusRep s n) : FocusRep (calls.foldl setFocus s) n := by
  induction calls generalizing s with
  | nil => exact h
  | cons c rest ih => exact ih _ (focusRep_setFocus s n hn h c)

/-- C1: starting from the state a window is in once its focus chain is
non-empty (all elements inactive, then the `AddElement` auto-focus call
`setFocus 0`), after any further sequence of `setFocus` calls with
arbitrary integer arguments, exactly one entry of the focus chain has its
active flag set and the stored focus index lies in `[0, length)`. -/
theorem setFocus_exactly_one_active (n : Nat) (hn : 0 < n) (calls : List Int) :
    (calls.foldl setFocus (initialFocusState n)).chain.count true = 1 ∧
      0 ≤ (calls.foldl setFocus (initialFocusState n)).focusedIndex ∧
      (calls.foldl setFocus (initialFocusState n)).focusedIndex < n := by
  have h := focusRep_foldl n hn calls _ (focusRep_initial n hn)
  obtain ⟨hchain, h0, hlt, hlen⟩ := h
  refine ⟨?_, h0, hlt⟩
  rw [hchain]
  exact count_set_true n _ (by omega)

/-- Witness for C1 at a chain of length 3 and calls `[-2, 7, 1]`. -/
theorem setFocus_exactly_one_active_witness :
    0 < 3 ∧
      (([-2, 7, 1] : List Int).foldl setFocus (initialFocusState 3)).chain.count true = 1 ∧
      0 ≤ (([-2, 7, 1] : List Int).foldl setFocus (initialFocusState 3)).focusedIndex ∧
      (([-2, 7, 1] : List Int).foldl setFocus (initialFocusState 3)).focusedIndex < 3 :=
  ⟨by decide, setFocus_exactly_one_active 3 (by decide) [-2, 7, 1]⟩

/-! ## Removing elements (`Window.RemoveElement`, window.go lines 150-170)

Elements are identified here by a numeric id; `RemoveElement` scans the
element list and the focusable-element list for the first entry equal to
the argument, removes it, and decrements the focus index when the removed
chain position is `≤` the focus index (`if w.focusedIndex >= i`). -/

structure WinElems where
  elements : List Nat
  focusableElements : List Nat
  focusedIndex : Int
  deriving Repr, DecidableEq

/-- `Window.RemoveElement`. -/
def removeElement (w : WinElems) (e : Nat) : WinElems :=
  let elements1 : List Nat :=
    match w.elements.findIdx? (· == e) with
    | some i => w.elements.eraseIdx i
    | none => w.elements
  match w.focusableElements.findIdx? (· == e) with
  | some i =>
      { elements := elements1,
        focusableElements := w.focusableElements.eraseIdx i,
        focusedIndex :=
          if (i : Int) ≤ w.focusedIndex then w.focusedIndex - 1 else w.focusedIndex }
  | none => { w with elements := elements1 }

/-- C9 counterexample: with a two-element focus chain focused at position
0, removing the focused element leaves focus index `-1`, which is not in
`[0, 1)` — the claim that the decremented index "remains valid" fails. -/
theorem removeElement_c9_counterexample :
    (removeElement ⟨[10, 20], [10, 20], 0⟩ 10).focusableElements.length = 1 ∧
      (removeElement ⟨[10, 20], [10, 20], 0⟩ 10).focusedIndex = -1 ∧
      ¬ (0 ≤ (removeElement ⟨[10, 20], [10, 20], 0⟩ 10).focusedIndex ∧
          (removeElement ⟨[10, 20], [10, 20], 0⟩ 10).focusedIndex < 1) := by
  decide

/-- C9 amended: removing the element at chain position `i` decrements the
focus index whenever `i ≤ focusedIndex`; if the removed element was
earlier than the focus (`i < focusedIndex`) the same element stays at the
new index, and if it was the focused element itself the new index stays
in `[0, length - 1)` provided the focused element was not at position 0
(at position 0 the index becomes `-1`: nothing is focused). -/
theorem removeElement_focus_adjustment (w : WinElems) (e : Nat) (i : Nat)
    (hfind : w.focusableElements.findIdx? (· == e) = some i)
    (h0 : 0 ≤ w.focusedIndex) (hlt : w.focusedIndex < w.focusableElements.length) :
    ((i : Int) < w.focusedIndex →
        (removeElement w e).focusedIndex = w.focusedIndex - 1 ∧
          (removeElement w e).focusableElements[(removeElement w e).focusedIndex.toNat]? =
            w.focusableElements[w.focusedIndex.toNat]?) ∧
      ((i : Int) = w.focusedIndex →
        (removeElement w e).focusedIndex = w.focusedIndex - 1 ∧
          (0 < w.focusedIndex →
            0 ≤ (removeElement w e).focusedIndex ∧
              (removeElement w e).focusedIndex < (w.focusableElements.length : Int) - 1)) ∧
      (removeElement w e).focusableElements.length = w.focusableElements.length - 1 := by
  have hi : i < w.focusableElements.length :=
    (List.findIdx?_eq_some_iff_findIdx_eq.mp hfind).1
  unfold removeElement
  simp only [hfind]
  refine ⟨?_, ?_, ?_⟩
  · intro hlt2
    have hle : (i : Int) ≤ w.focusedIndex := le_of_lt hlt2
    simp only [if_pos hle]
    refine ⟨by trivial, ?_⟩
    have htn : (w.focusedIndex - 1).toNat = w.focusedIndex.toNat - 1 := by omega
    rw [htn, List.getElem?_eraseIdx_of_ge]
    · congr 1; omega
    · omega
  · intro heq
    have hle : (i : Int) ≤ w.focusedIndex := le_of_eq heq
    simp only [if_pos hle]
    exact ⟨by trivial, fun hpos => ⟨by omega, by omega⟩⟩
  · rw [List.length_eraseIdx, if_pos hi]

/-- Witness for C9 amended: chain `[5, 6, 7]` focused at index 2, remove
element `6` at position 1. -/
theorem removeElement_focus_adjustment_witness :
    ((⟨[5, 6, 7], [5, 6, 7], 2⟩ : WinElems).focusableElements.findIdx? (· == 6) = some 1 ∧
        0 ≤ (2 : Int) ∧ (2 : Int) < 3) ∧
      ((1 : Int) < 2 →
        (removeElement ⟨[5, 6, 7], [5, 6, 7], 2⟩ 6).focusedIndex = 2 - 1 ∧
          (removeElement ⟨[5, 6, 7], [5, 6, 7], 2⟩ 6).focusableElements[
            (removeElement ⟨[5, 6, 7], [5, 6, 7], 2⟩ 6).focusedIndex.toNat]? =
            ([5, 6, 7] : List Nat)[(2 : Int).toNat]?) ∧
      ((1 : Int) = 2 →
        (removeElement ⟨[5, 6, 7], [5, 6, 7], 2⟩ 6).focusedIndex = 2 - 1 ∧
          (0 < (2 : Int) →
            0 ≤ (removeElement ⟨[5, 6, 7], [5, 6, 7], 2⟩ 6).focusedIndex ∧
              (removeElement ⟨[5, 6, 7], [5, 6, 7], 2⟩ 6).focusedIndex < (3 : Int) - 1)) ∧
      (removeElement ⟨[5, 6, 7], [5, 6, 7], 2⟩ 6).focusableElements.length = 3 - 1 :=
  ⟨⟨by decide, by decide, by decide⟩,
    removeElement_focus_adjustment ⟨[5, 6, 7], [5, 6, 7], 2⟩ 6 1 (by decide) (by decide)
      (by decide)⟩

/-! ## ScrollBar (part_005 lines 632-762)

`ScrollBar` state relevant to behaviour: `Height`, `Value`, `MaxValue`,
`Visible` (colors, glyphs and position are render-only).  The `OnScroll`
callback is modelled by returning a `Bool` saying whether it fired. -/

structure ScrollBarSt where
  height : Int
  value : Int
  maxValue : Int
  visible : Bool
  deriving Repr, DecidableEq

/-- `NewScrollBar` (lines 653-681): height below 2 becomes 2, value and
max-value clamped to be non-negative and consistent; starts hidden. -/
def newScrollBar (height value maxValue : Int) : ScrollBarSt :=
  let height := if height < 2 then 2 else height
  let value := if value < 0 then 0 else value
  let maxValue := if maxValue < 0 then 0 else maxValue
  let value := if value > maxValue then maxValue else value
  { height := height, value := value, maxValue := maxValue, visible := false }

/-- `ScrollBar.SetValue` (lines 684-700): clamp the argument into
`[0, MaxValue]`; store it and invoke `OnScroll` only when it differs from
the stored value.  The second component records whether `OnScroll` ran. -/
def sbSetValue (sb : ScrollBarSt) (v : Int) : ScrollBarSt × Bool :=
  let newValue := if v < 0 then 0 else if v > sb.maxValue then sb.maxValue else v
  if newValue ≠ sb.value then ({ sb with value := newValue }, true) else (sb, false)

lemma sbSetValue_fst_value (sb : ScrollBarSt) (v : Int) :
    (sbSetValue sb v).1.value =
      if v < 0 then 0 else if v > sb.maxValue then sb.maxValue else v := by
  unfold sbSetValue
  by_cases h : (if v < 0 then 0 else if v > sb.maxValue then sb.maxValue else v) = sb.value <;>
    simp [h]

lemma sbSetValue_fst_maxValue (sb : ScrollBarSt) (v : Int) :
    (sbSetValue sb v).1.maxValue = sb.maxValue := by
  unfold sbSetValue
  by_cases h : (if v < 0 then 0 else if v > sb.maxValue then sb.maxValue else v) = sb.value <;>
    simp [h]

lemma sbSetValue_fst_visible (sb : ScrollBarSt) (v : Int) :
    (sbSetValue sb v).1.visible = sb.visible := by
  unfold sbSetValue
  by_cases h : (if v < 0 then 0 else if v > sb.maxValue then sb.maxValue else v) = sb.value <;>
    simp [h]

/-- C6: `SetValue` stores the argument clamped into `[0, MaxValue]`, the
`OnScroll` notification fires exactly when the clamped value differs from
the previously stored value, and re-setting the current (in-range) value
never fires. -/
theorem sbSetValue_clamps_and_fires_iff (sb : ScrollBarSt) (v : Int) :
    ((sbSetValue sb v).1.value =
        if v < 0 then 0 else if v > sb.maxValue then sb.maxValue else v) ∧
      ((sbSetValue sb v).2 = true ↔
        (if v < 0 then 0 else if v > sb.maxValue then sb.maxValue else v) ≠ sb.value) ∧
      (0 ≤ sb.maxValue →
        0 ≤ (sbSetValue sb v).1.value ∧ (sbSetValue sb v).1.value ≤ sb.maxValue) ∧
      (0 ≤ sb.value → sb.value ≤ sb.maxValue → (sbSetValue sb sb.value).2 = false) := by
  refine ⟨sbSetValue_fst_value sb v, ?_, ?_, ?_⟩
  · unfold sbSetValue
    by_cases h : (if v < 0 then 0 else if v > sb.maxValue then sb.maxValue else v) = sb.value <;>
      simp [h]
  · intro hmax
    rw [sbSetValue_fst_value]
    constructor <;> (split_ifs <;> omega)
  · intro h0 hle
    unfold sbSetValue
    have : (if sb.value < 0 then 0 else if sb.value > sb.maxValue then sb.maxValue
        else sb.value) = sb.value := by split_ifs <;> omega
    simp [this]

/-- Witness for C6 at `MaxValue = 10`, stored value 4, argument 17. -/
theorem sbSetValue_clamps_and_fires_iff_witness :
    (0 ≤ (10 : Int) ∧ 0 ≤ (4 : Int) ∧ (4 : Int) ≤ 10) ∧
      (0 ≤ (sbSetValue ⟨5, 4, 10, true⟩ 17).1.value ∧
        (sbSetValue ⟨5, 4, 10, true⟩ 17).1.value ≤ 10) ∧
      (sbSetValue ⟨5, 4, 10, true⟩ 4).2 = false := by
  refine ⟨⟨by decide, by decide, by decide⟩, ?_, ?_⟩
  · exact (sbSetValue_clamps_and_fires_iff ⟨5, 4, 10, true⟩ 17).2.2.1 (by decide)
  · exact (sbSetValue_clamps_and_fires_iff ⟨5, 4, 10, true⟩ 17).2.2.2 (by decide) (by decide)

/-! ## Container viewport (part_005 lines 764-1095)

State relevant to scrolling and highlighting; colors, callbacks and the
confirmed-selection bookkeeping play no role in these claims. -/

structure ContainerSt where
  width : Int
  height : Int
  content : List String
  scrollBar : ScrollBarSt
  needsScroll : Bool
  totalContentHeight : Int
  highlightedIndex : Int
  deriving Repr, DecidableEq

/-- `Container.ensureHighlightVisible` (lines 943-959): when the
scrollbar is visible and a line is highlighted, scroll up to the
highlight if it is above the view, or down so it becomes the bottom
visible line if it is below; `SetValue` clamps the result. -/
def containerEnsureHighlightVisible (c : ContainerSt) : ContainerSt :=
  if ¬ c.scrollBar.visible ∨ c.highlightedIndex < 0 then c
  else
    let scrollOffset := c.scrollBar.value
    let bottomVisibleIndex := scrollOffset + c.height - 1
    if c.highlightedIndex < scrollOffset then
      { c with scrollBar := (sbSetValue c.scrollBar c.highlightedIndex).1 }
    else if c.highlightedIndex > bottomVisibleIndex then
      { c with scrollBar := (sbSetValue c.scrollBar (c.highlightedIndex - c.height + 1)).1 }
    else c

/-- `Container.updateScrollState` (lines 887-919). -/
def containerUpdateScrollState (c : ContainerSt) : ContainerSt :=
  let c := { c with totalContentHeight := (c.content.length : Int),
                    needsScroll := (c.content.length : Int) > c.height }
  let c :=
    if c.highlightedIndex ≥ c.totalContentHeight then
      if c.totalContentHeight > 0 then { c with highlightedIndex := c.totalContentHeight - 1 }
      else { c with highlightedIndex := -1 }
    else c
  let c := { c with scrollBar := { c.scrollBar with visible := c.needsScroll } }
  let c :=
    if c.needsScroll then
      let sbMax :=
        if c.totalContentHeight - c.height < 0 then 0 else c.totalContentHeight - c.height
      let sb := { c.scrollBar with maxValue := sbMax }
      { c with scrollBar := (sbSetValue sb sb.value).1 }
    else
      let sb := { c.scrollBar with maxValue := 0 }
      { c with scrollBar := (sbSetValue sb 0).1 }
  containerEnsureHighlightVisible c

/-- `NewContainer` (lines 788-840); the `x, y` position plays no role in
scrolling behaviour but is kept for the constructor claim (no clamping is
applied to it in the source either). -/
def newContainer (x y width height : Int) (content : List String) : ContainerSt :=
  let _ := x
  let _ := y
  let width := if width < 1 then 1 else width
  let height := if height < 1 then 1 else height
  let c : ContainerSt :=
    { width := width, height := height, content := content,
      scrollBar := newScrollBar height 0 0, needsScroll := false,
      totalContentHeight := 0, highlightedIndex := 0 }
  let c := containerUpdateScrollState c
  let c :=
    if c.highlightedIndex ≥ (c.content.length : Int) ∧ (c.content.length : Int) > 0 then
      { c with highlightedIndex := (c.content.length : Int) - 1 }
    else if (c.content.length : Int) = 0 then { c with highlightedIndex := -1 }
    else c
  containerEnsureHighlightVisible c

/-- `Container.HighlightNext` (lines 967-972). -/
def highlightNext (c : ContainerSt) : ContainerSt :=
  if c.highlightedIndex < c.totalContentHeight - 1 then
    containerEnsureHighlightVisible { c with highlightedIndex := c.highlightedIndex + 1 }
  else c

/-- Modelled from the spec (§4.6): the viewport synchroniser
`ensureVisible` as the spec words it, for comparison with the code's
`ensureHighlightVisible`. -/
def ensureVisibleSpec (offset height maxOffset highlighted : Int) : Int :=
  let o :=
    if highlighted < offset then highlighted
    else if highlighted > offset + height - 1 then highlighted - height + 1
    else offset
  max 0 (min o maxOffset)

set_option maxRecDepth 20000 in
/-- C3: on a viewport state as the container maintains it (scrollbar
visible because content exceeds the height, offset within
`[0, maxOffset]` for `maxOffset = max 0 (contentLength - height)`, a
non-negative highlight), `ensureHighlightVisible` computes exactly the
spec's `ensureVisible` and the result stays in `[0, maxOffset]`; and
Scenario A: a container with 25 content rows and viewport height 10
reaches `highlighted = 12`, `offset = 3` after 12 highlight-next events. -/
theorem ensureHighlightVisible_matches_spec (c : ContainerSt)
    (hvis : c.scrollBar.visible = true)
    (hh : 0 ≤ c.highlightedIndex)
    (hv0 : 0 ≤ c.scrollBar.value)
    (hvm : c.scrollBar.value ≤ c.scrollBar.maxValue)
    (hmax : c.scrollBar.maxValue = max 0 ((c.content.length : Int) - c.height))
    (hlen : (c.content.length : Int) > c.height) :
    ((containerEnsureHighlightVisible c).scrollBar.value =
        ensureVisibleSpec c.scrollBar.value c.height c.scrollBar.maxValue c.highlightedIndex ∧
      0 ≤ (containerEnsureHighlightVisible c).scrollBar.value ∧
      (containerEnsureHighlightVisible c).scrollBar.value ≤ c.scrollBar.maxValue) ∧
    ((highlightNext^[12] (newContainer 0 0 20 10 (List.replicate 25 "row"))).highlightedIndex
        = 12 ∧
      (highlightNext^[12]
          (newContainer 0 0 20 10 (List.replicate 25 "row"))).scrollBar.value = 3) := by
  constructor
  · unfold containerEnsureHighlightVisible ensureVisibleSpec
    have hguard : ¬ (¬ c.scrollBar.visible = true ∨ c.highlightedIndex < 0) := by
      simp [hvis]; omega
    simp only [hguard, if_false]
    have hmax0 : 0 ≤ c.scrollBar.maxValue := by omega
    split_ifs with h1 h2
    · rw [sbSetValue_fst_value]
      refine ⟨?_, ?_, ?_⟩ <;> (split_ifs <;> omega)
    · rw [sbSetValue_fst_value]
      refine ⟨?_, ?_, ?_⟩ <;> (split_ifs <;> omega)
    · refine ⟨?_, hv0, hvm⟩
      omega
  · constructor <;> decide

/-- Witness for C3 at a concrete visible viewport (25 rows, height 10,
offset 0, highlight 14). -/
theorem ensureHighlightVisible_matches_spec_witness :
    ((containerEnsureHighlightVisible
          ⟨20, 10, List.replicate 25 "row", ⟨10, 0, 15, true⟩, true, 25, 14⟩).scrollBar.value =
        ensureVisibleSpec 0 10 15 14 ∧
      0 ≤ (containerEnsureHighlightVisible
          ⟨20, 10, List.replicate 25 "row", ⟨10, 0, 15, true⟩, true, 25, 14⟩).scrollBar.value ∧
      (containerEnsureHighlightVisible
          ⟨20, 10, List.replicate 25 "row", ⟨10, 0, 15, true⟩, true, 25, 14⟩).scrollBar.value
        ≤ 15) ∧
    ((highlightNext^[12] (newContainer 0 0 20 10 (List.replicate 25 "row"))).highlightedIndex
        = 12 ∧
      (highlightNext^[12]
          (newContainer 0 0 20 10 (List.replicate 25 "row"))).scrollBar.value = 3) :=
  ensureHighlightVisible_matches_spec
    ⟨20, 10, List.replicate 25 "row", ⟨10, 0, 15, true⟩, true, 25, 14⟩
    rfl (by decide) (by decide) (by decide) (by decide) (by decide)

/-! ## Constructor argument handling (C8)

`NewWindow` (window.go lines 54-75) replaces an unknown box-style name by
"single" but applies no clamping to the dimensions; `NewProgressBar`
(part_005 lines 448-473) clamps its float64 value/max (modelled over `ℚ`:
only order comparisons occur, no rounding arithmetic); `NewScrollBar` and
`NewContainer` are embedded above. -/

/-- The keys of the `BoxTypes` table (part_004 lines 136-169). -/
def boxTypes : List String := ["single", "double", "round", "bold"]

structure WindowSt where
  width : Int
  height : Int
  boxStyle : String
  deriving Repr, DecidableEq

/-- `NewWindow`: unknown box styles fall back to "single"; width and
height are stored as given. -/
def newWindow (width height : Int) (boxStyle : String) : WindowSt :=
  { width := width, height := height,
    boxStyle := if boxTypes.contains boxStyle then boxStyle else "single" }

structure ProgressBarSt where
  value : Rat
  maxValue : Rat
  deriving Repr, DecidableEq

/-- `NewProgressBar`: non-positive max becomes 100, negative initial
value becomes 0, initial value above max is capped at max. -/
def newProgressBar (initialValue maxValue : Rat) : ProgressBarSt :=
  let maxValue := if maxValue ≤ 0 then 100 else maxValue
  let initialValue := if initialValue < 0 then 0 else initialValue
  let initialValue := if initialValue > maxValue then maxValue else initialValue
  { value := initialValue, maxValue := maxValue }

lemma containerEnsureHighlightVisible_width (c : ContainerSt) :
    (containerEnsureHighlightVisible c).width = c.width := by
  unfold containerEnsureHighlightVisible
  dsimp only
  split_ifs <;> rfl

lemma containerEnsureHighlightVisible_height (c : ContainerSt) :
    (containerEnsureHighlightVisible c).height = c.height := by
  unfold containerEnsureHighlightVisible
  dsimp only
  split_ifs <;> rfl

lemma containerUpdateScrollState_width (c : ContainerSt) :
    (containerUpdateScrollState c).width = c.width := by
  unfold containerUpdateScrollState
  rw [containerEnsureHighlightVisible_width]
  dsimp only
  split_ifs <;> rfl

lemma containerUpdateScrollState_height (c : ContainerSt) :
    (containerUpdateScrollState c).height = c.height := by
  unfold containerUpdateScrollState
  rw [containerEnsureHighlightVisible_height]
  dsimp only
  split_ifs <;> rfl

/-- C8 counterexample: `NewScrollBar` turns a height of 0 into 2, not 1,
and `NewWindow` leaves a width of 0 (and any other dimension) unclamped —
so "widths/heights below 1 become 1" fails for both. -/
theorem constructor_clamping_counterexample :
    (newScrollBar 0 0 0).height = 2 ∧ ¬ ((newScrollBar 0 0 0).height = 1) ∧
      (newWindow 0 0 "single").width = 0 ∧ ¬ ((newWindow 0 0 "single").width = 1) := by
  decide

/-- C8 amended: constructors never signal errors and normalise their
arguments — an unknown box-style name becomes "single" (known names kept),
a non-positive progress-bar maximum becomes 100 and the initial value is
clamped into `[0, max]` (negatives to 0), Container dimensions below 1
become 1, and a ScrollBar height below 2 becomes 2 with its value clamped
into `[0, max]`; Window dimensions are stored unclamped. -/
theorem constructor_clamping_amended :
    (∀ s : String, ¬ boxTypes.contains s → ∀ w h : Int, (newWindow w h s).boxStyle = "single") ∧
      (∀ s : String, boxTypes.contains s → ∀ w h : Int, (newWindow w h s).boxStyle = s) ∧
      (∀ w h : Int, (newWindow w h "single").width = w ∧ (newWindow w h "single").height = h) ∧
      (∀ init maxv : Rat, maxv ≤ 0 → (newProgressBar init maxv).maxValue = 100) ∧
      (∀ init maxv : Rat, init < 0 → (newProgressBar init maxv).value = 0) ∧
      (∀ init maxv : Rat,
        0 ≤ (newProgressBar init maxv).value ∧
          (newProgressBar init maxv).value ≤ (newProgressBar init maxv).maxValue ∧
          0 < (newProgressBar init maxv).maxValue) ∧
      (∀ h v m : Int,
        2 ≤ (newScrollBar h v m).height ∧ 0 ≤ (newScrollBar h v m).value ∧
          (newScrollBar h v m).value ≤ (newScrollBar h v m).maxValue ∧
          0 ≤ (newScrollBar h v m).maxValue) ∧
      (∀ x y w h : Int, ∀ content : List String,
        1 ≤ (newContainer x y w h content).width ∧
          1 ≤ (newContainer x y w h content).height) := by
  refine ⟨?_, ?_, ?_, ?_, ?_, ?_, ?_, ?_⟩
  · intro s hs w h
    unfold newWindow
    rw [if_neg (by simpa using hs)]
  · intro s hs w h
    unfold newWindow
    rw [if_pos (by simpa using hs)]
  · intro w h; exact ⟨rfl, rfl⟩
  · intro init maxv hm
    unfold newProgressBar
    dsimp only
    rw [if_pos hm]
  · intro init maxv hv
    unfold newProgressBar
    dsimp only
    rw [if_pos hv]
    split_ifs <;> first | rfl | linarith
  · intro init maxv
    unfold newProgressBar
    dsimp only
    split_ifs <;> refine ⟨by linarith, by linarith, by linarith⟩
  · intro h v m
    unfold newScrollBar
    dsimp only
    refine ⟨?_, ?_, ?_, ?_⟩ <;> (split_ifs <;> omega)
  · intro x y w h content
    unfold newContainer
    dsimp only
    rw [containerEnsureHighlightVisible_width, containerEnsureHighlightVisible_height]
    constructor <;>
      (split_ifs <;>
        simp only [containerEnsureHighlightVisible_width, containerEnsureHighlightVisible_height,
          containerUpdateScrollState_width, containerUpdateScrollState_height] <;>
        first | omega | (split_ifs <;> omega))

/-- Witness for C8 amended: unknown style "fancy", progress bar with
max `-3` and initial `-1`, scrollbar with height 0, container 0×0. -/
theorem constructor_clamping_amended_witness :
    (¬ boxTypes.contains "fancy" ∧ (-3 : Rat) ≤ 0 ∧ (-1 : Rat) < 0) ∧
      (newWindow 4 5 "fancy").boxStyle = "single" ∧
      (newProgressBar (-1) (-3)).maxValue = 100 ∧
      (newProgressBar (-1) (-3)).value = 0 ∧
      (2 ≤ (newScrollBar 0 0 0).height) ∧
      (1 ≤ (newContainer 0 0 0 0 []).width ∧ 1 ≤ (newContainer 0 0 0 0 []).height) := by
  refine ⟨⟨by decide, by norm_num, by norm_num⟩, ?_, ?_, ?_, ?_, ?_⟩
  · exact constructor_clamping_amended.1 "fancy" (by decide) 4 5
  · exact constructor_clamping_amended.2.2.2.1 (-1) (-3) (by norm_num)
  · exact constructor_clamping_amended.2.2.2.2.1 (-1) (-3) (by norm_num)
  · exact (constructor_clamping_amended.2.2.2.2.2.2.1 0 0 0).1
  · exact constructor_clamping_amended.2.2.2.2.2.2.2 0 0 0 0 []

/-! ## TextArea (part_005 lines 1097-1643)

Text is stored as lines of runes (`List (List Char)`), with a rune-based
cursor.  The scrollbar's `OnScroll` callback installed by `NewTextArea`
writes the new value into `viewTopLine`; `needsScroll`, the word count
and the status-line text are render-only and omitted. -/

structure TextAreaSt where
  height : Int
  lines : List (List Char)
  cursorLine : Int
  cursorCol : Int
  viewTopLine : Int
  scrollBar : ScrollBarSt
  isActive : Bool
  maxChars : Int
  charCount : Int
  deriving Repr, DecidableEq

/-- The rune slice of the cursor's line, `ta.Lines[ta.cursorLine]` (every
use site has the index in range; out of range yields `[]`). -/
def lineAt (ta : TextAreaSt) : List Char := (ta.lines[ta.cursorLine.toNat]?).getD []

/-- `ScrollBar.SetValue` as called from a TextArea, whose `OnScroll`
callback (`NewTextArea`, lines 1168-1170) stores the new value into
`viewTopLine` whenever it fires. -/
def taSetScrollValue (ta : TextAreaSt) (v : Int) : TextAreaSt :=
  let r := sbSetValue ta.scrollBar v
  { ta with scrollBar := r.1, viewTopLine := if r.2 then r.1.value else ta.viewTopLine }

/-- `TextArea.calculateCounts` (lines 1180-1210), character count only:
rune count of every line plus one per newline between lines. -/
def calculateCounts (ta : TextAreaSt) : TextAreaSt :=
  { ta with
    charCount := ((ta.lines.map List.length).sum : Int) +
      (if ta.lines.length = 0 then 0 else (ta.lines.length : Int) - 1) }

/-- `TextArea.updateScrollState` (lines 1212-1240). -/
def taUpdateScrollState (ta : TextAreaSt) : TextAreaSt :=
  let contentHeight : Int := ta.lines.length
  let visibleHeight : Int := if ta.height - 1 < 1 then 1 else ta.height - 1
  let needsScroll := contentHeight > visibleHeight
  let ta := { ta with scrollBar := { ta.scrollBar with visible := needsScroll } }
  if needsScroll then
    let sbMax := if contentHeight - visibleHeight < 0 then 0 else contentHeight - visibleHeight
    let ta :=
      { ta with scrollBar := { ta.scrollBar with maxValue := sbMax, height := visibleHeight } }
    let ta := taSetScrollValue ta ta.scrollBar.value
    { ta with viewTopLine := ta.scrollBar.value }
  else
    let ta := { ta with scrollBar := { ta.scrollBar with maxValue := 0 } }
    let ta := taSetScrollValue ta 0
    { ta with viewTopLine := 0 }

/-- `TextArea.ensureCursorVisible` (lines 1242-1259). -/
def taEnsureCursorVisible (ta : TextAreaSt) : TextAreaSt :=
  let visibleHeight : Int := if ta.height - 1 < 1 then 1 else ta.height - 1
  let bottomVisibleLine := ta.viewTopLine + visibleHeight - 1
  if ta.cursorLine < ta.viewTopLine then
    taSetScrollValue { ta with viewTopLine := ta.cursorLine } ta.cursorLine
  else if ta.cursorLine > bottomVisibleLine then
    taSetScrollValue { ta with viewTopLine := ta.cursorLine - visibleHeight + 1 }
      (ta.cursorLine - visibleHeight + 1)
  else ta

/-- `TextArea.clampCursorCol` (lines 1414-1439). -/
def clampCursorCol (ta : TextAreaSt) : TextAreaSt :=
  let ta := if ta.cursorLine < 0 then { ta with cursorLine := 0 } else ta
  let ta :=
    if ta.cursorLine ≥ (ta.lines.length : Int) then
      if ta.lines.length > 0 then { ta with cursorLine := (ta.lines.length : Int) - 1 }
      else { ta with lines := [[]], cursorLine := 0 }
    else ta
  if ta.lines.length = 0 then { ta with lines := [[]], cursorLine := 0, cursorCol := 0 }
  else
    let currentLineLen : Int := (lineAt ta).length
    if ta.cursorCol < 0 then { ta with cursorCol := 0 }
    else if ta.cursorCol > currentLineLen then { ta with cursorCol := currentLineLen }
    else ta

/-- The common tail of every editing operation: `clampCursorCol`,
`calculateCounts`, `updateScrollState`, `ensureCursorVisible`. -/
def taFinish (ta : TextAreaSt) : TextAreaSt :=
  taEnsureCursorVisible (taUpdateScrollState (calculateCounts (clampCursorCol ta)))

/-- `TextArea.InsertChar` (lines 1441-1473). -/
def insertChar (ta : TextAreaSt) (r : Char) : TextAreaSt :=
  if ta.isActive then
    if ta.maxChars > 0 ∧ ta.charCount ≥ ta.maxChars ∧ r ≠ '\n' then ta
    else
      let ta :=
        if ta.cursorLine < 0 ∨ ta.cursorLine ≥ (ta.lines.length : Int) then clampCursorCol ta
        else ta
      let currentLineRunes := lineAt ta
      let ta :=
        if r = '\n' then
          let textAfterCursor := currentLineRunes.drop ta.cursorCol.toNat
          let lines1 := ta.lines.set ta.cursorLine.toNat (currentLineRunes.take ta.cursorCol.toNat)
          let nextLineIndex := ta.cursorLine + 1
          { ta with
            lines := lines1.take nextLineIndex.toNat ++
              textAfterCursor :: lines1.drop nextLineIndex.toNat,
            cursorLine := nextLineIndex,
            cursorCol := 0 }
        else
          { ta with
            lines := ta.lines.set ta.cursorLine.toNat
              (currentLineRunes.take ta.cursorCol.toNat ++
                r :: currentLineRunes.drop ta.cursorCol.toNat),
            cursorCol := ta.cursorCol + 1 }
      taFinish ta
  else ta

/-- `TextArea.DeleteChar` (backspace, lines 1475-1508). -/
def deleteChar (ta : TextAreaSt) : TextAreaSt :=
  if ta.isActive then
    if ta.cursorLine = 0 ∧ ta.cursorCol = 0 then ta
    else
      let ta :=
        if ta.cursorLine < 0 ∨ ta.cursorLine ≥ (ta.lines.length : Int) then clampCursorCol ta
        else ta
      let ta :=
        if ta.cursorCol > 0 then
          let currentLineRunes := lineAt ta
          { ta with
            lines := ta.lines.set ta.cursorLine.toNat
              (currentLineRunes.take (ta.cursorCol - 1).toNat ++
                currentLineRunes.drop ta.cursorCol.toNat),
            cursorCol := ta.cursorCol - 1 }
        else
          let prevLineIndex := ta.cursorLine - 1
          let prevLineRunes := (ta.lines[prevLineIndex.toNat]?).getD []
          let currentLineRunes := lineAt ta
          let lines1 := ta.lines.set prevLineIndex.toNat (prevLineRunes ++ currentLineRunes)
          { ta with
            lines := lines1.eraseIdx ta.cursorLine.toNat,
            cursorLine := prevLineIndex,
            cursorCol := (prevLineRunes.length : Int) }
      taFinish ta
  else ta

/-- `TextArea.DeleteForward` (delete key, lines 1510-1541). -/
def deleteForward (ta : TextAreaSt) : TextAreaSt :=
  if ta.isActive then
    let ta :=
      if ta.cursorLine < 0 ∨ ta.cursorLine ≥ (ta.lines.length : Int) then clampCursorCol ta
      else ta
    if ta.cursorLine < 0 ∨ ta.cursorLine ≥ (ta.lines.length : Int) then ta
    else
      let currentLineRunes := lineAt ta
      if ta.cursorCol < (currentLineRunes.length : Int) then
        taFinish
          { ta with
            lines := ta.lines.set ta.cursorLine.toNat
              (currentLineRunes.take ta.cursorCol.toNat ++
                currentLineRunes.drop (ta.cursorCol + 1).toNat) }
      else if ta.cursorLine < (ta.lines.length : Int) - 1 then
        let nextLineIndex := ta.cursorLine + 1
        let nextLineRunes := (ta.lines[nextLineIndex.toNat]?).getD []
        let lines1 := ta.lines.set ta.cursorLine.toNat (currentLineRunes ++ nextLineRunes)
        taFinish { ta with lines := lines1.eraseIdx nextLineIndex.toNat }
      else ta
  else ta

/-- `TextArea.MoveCursorLeft` (lines 1543-1556). -/
def moveCursorLeft (ta : TextAreaSt) : TextAreaSt :=
  let ta :=
    if ta.cursorCol > 0 then { ta with cursorCol := ta.cursorCol - 1 }
    else if ta.cursorLine > 0 then
      let ta := { ta with cursorLine := ta.cursorLine - 1 }
      if 0 ≤ ta.cursorLine ∧ ta.cursorLine < (ta.lines.length : Int) then
        { ta with cursorCol := ((lineAt ta).length : Int) }
      else { ta with cursorCol := 0 }
    else ta
  taEnsureCursorVisible ta

/-- `TextArea.MoveCursorRight` (lines 1558-1575). -/
def moveCursorRight (ta : TextAreaSt) : TextAreaSt :=
  let ta :=
    if ta.cursorLine < 0 ∨ ta.cursorLine ≥ (ta.lines.length : Int) then clampCursorCol ta
    else ta
  if ta.cursorLine < 0 ∨ ta.cursorLine ≥ (ta.lines.length : Int) then ta
  else
    let currentLineLen : Int := (lineAt ta).length
    let ta :=
      if ta.cursorCol < currentLineLen then { ta with cursorCol := ta.cursorCol + 1 }
      else if ta.cursorLine < (ta.lines.length : Int) - 1 then
        { ta with cursorLine := ta.cursorLine + 1, cursorCol := 0 }
      else ta
    taEnsureCursorVisible ta

/-- `TextArea.MoveCursorUp` (lines 1577-1584). -/
def moveCursorUp (ta : TextAreaSt) : TextAreaSt :=
  if ta.cursorLine > 0 then
    taEnsureCursorVisible (clampCursorCol { ta with cursorLine := ta.cursorLine - 1 })
  else ta

/-- `TextArea.MoveCursorDown` (lines 1586-1593). -/
def moveCursorDown (ta : TextAreaSt) : TextAreaSt :=
  if ta.cursorLine < (ta.lines.length : Int) - 1 then
    taEnsureCursorVisible (clampCursorCol { ta with cursorLine := ta.cursorLine + 1 })
  else ta

/-- `strings.ReplaceAll(text, "\r\n", "\n")`: left-to-right,
non-overlapping replacement of CRLF by LF. -/
def replaceCRLF : List Char → List Char
  | '\r' :: '\n' :: rest => '\n' :: replaceCRLF rest
  | c :: rest => c :: replaceCRLF rest
  | [] => []

/-- `TextArea.SetText` (lines 1626-1638): split the CRLF-normalised text
on newlines (Go `strings.Split` of the empty string yields one empty
part, as does `List.splitOn`), reset the cursor and view. -/
def setText (ta : TextAreaSt) (text : List Char) : TextAreaSt :=
  let lines := (replaceCRLF text).splitOn '\n'
  let lines := if lines = [] then [[]] else lines
  let ta := { ta with lines := lines, cursorLine := 0, cursorCol := 0, viewTopLine := 0 }
  taEnsureCursorVisible (taUpdateScrollState (calculateCounts ta))

/-- `TextArea.GetText` (lines 1621-1624): join the lines with "\n". -/
def getText (ta : TextAreaSt) : List Char := List.intercalate ['\n'] ta.lines

/-- The cursor/content well-formedness property of a TextArea: at least
one line, the cursor line in range, the cursor column between 0 and the
rune length of its line (one past the end allowed). -/
def TAInv (ta : TextAreaSt) : Prop :=
  ta.lines ≠ [] ∧ 0 ≤ ta.cursorLine ∧ ta.cursorLine < (ta.lines.length : Int) ∧
    0 ≤ ta.cursorCol ∧ ta.cursorCol ≤ ((lineAt ta).length : Int)

lemma taSetScrollValue_lines (ta : TextAreaSt) (v : Int) :
    (taSetScrollValue ta v).lines = ta.lines := rfl

lemma taSetScrollValue_cursorLine (ta : TextAreaSt) (v : Int) :
    (taSetScrollValue ta v).cursorLine = ta.cursorLine := rfl

lemma taSetScrollValue_cursorCol (ta : TextAreaSt) (v : Int) :
    (taSetScrollValue ta v).cursorCol = ta.cursorCol := rfl

lemma taUpdateScrollState_lines (ta : TextAreaSt) :
    (taUpdateScrollState ta).lines = ta.lines := by
  unfold taUpdateScrollState
  dsimp only
  split_ifs <;> rfl

lemma taUpdateScrollState_cursorLine (ta : TextAreaSt) :
    (taUpdateScrollState ta).cursorLine = ta.cursorLine := by
  unfold taUpdateScrollState
  dsimp only
  split_ifs <;> rfl

lemma taUpdateScrollState_cursorCol (ta : TextAreaSt) :
    (taUpdateScrollState ta).cursorCol = ta.cursorCol := by
  unfold taUpdateScrollState
  dsimp only
  split_ifs <;> rfl

lemma taEnsureCursorVisible_lines (ta : TextAreaSt) :
    (taEnsureCursorVisible ta).lines = ta.lines := by
  unfold taEnsureCursorVisible
  dsimp only
  split_ifs <;> rfl

lemma taEnsureCursorVisible_cursorLine (ta : TextAreaSt) :
    (taEnsureCursorVisible ta).cursorLine = ta.cursorLine := by
  unfold taEnsureCursorVisible
  dsimp only
  split_ifs <;> rfl

lemma taEnsureCursorVisible_cursorCol (ta : TextAreaSt) :
    (taEnsureCursorVisible ta).cursorCol = ta.cursorCol := by
  unfold taEnsureCursorVisible
  dsimp only
  split_ifs <;> rfl

lemma calculateCounts_lines (ta : TextAreaSt) : (calculateCounts ta).lines = ta.lines := rfl

lemma calculateCounts_cursorLine (ta : TextAreaSt) :
    (calculateCounts ta).cursorLine = ta.cursorLine := rfl

lemma calculateCounts_cursorCol (ta : TextAreaSt) :
    (calculateCounts ta).cursorCol = ta.cursorCol := rfl

lemma TAInv_pipeline (ta : TextAreaSt) :
    TAInv (taEnsureCursorVisible (taUpdateScrollState (calculateCounts ta))) ↔ TAInv ta := by
  unfold TAInv lineAt
  rw [taEnsureCursorVisible_lines, taEnsureCursorVisible_cursorLine,
    taEnsureCursorVisible_cursorCol, taUpdateScrollState_lines, taUpdateScrollState_cursorLine,
    taUpdateScrollState_cursorCol, calculateCounts_lines, calculateCounts_cursorLine,
    calculateCounts_cursorCol]

lemma TAInv_clampCursorCol (ta : TextAreaSt) : TAInv (clampCursorCol ta) := by
  unfold clampCursorCol
  dsimp only
  split_ifs <;> simp_all [TAInv, lineAt, ← List.length_pos] <;> omega

lemma TAInv_taFinish (ta : TextAreaSt) : TAInv (taFinish ta) :=
  (TAInv_pipeline (clampCursorCol ta)).mpr (TAInv_clampCursorCol ta)

lemma TAInv_taEnsureCursorVisible (ta : TextAreaSt) :
    TAInv (taEnsureCursorVisible ta) ↔ TAInv ta := by
  unfold TAInv lineAt
  rw [taEnsureCursorVisible_lines, taEnsureCursorVisible_cursorLine,
    taEnsureCursorVisible_cursorCol]

/-- C10: every editing and cursor-movement operation of a TextArea, and
`SetText`, preserves well-formedness: the line list stays non-empty, the
cursor line stays in `[0, number of lines)` and the cursor column stays
in `[0, rune length of its line]`. -/
theorem textArea_cursor_invariant (ta : TextAreaSt) (h : TAInv ta) :
    (∀ r : Char, TAInv (insertChar ta r)) ∧ TAInv (deleteChar ta) ∧
      TAInv (deleteForward ta) ∧ TAInv (moveCursorLeft ta) ∧ TAInv (moveCursorRight ta) ∧
      TAInv (moveCursorUp ta) ∧ TAInv (moveCursorDown ta) ∧
      (∀ text : List Char, TAInv (setText ta text)) := by
  have h5 := h
  obtain ⟨hne, hl0, hllt, hc0, hcle⟩ := h5
  refine ⟨?_, ?_, ?_, ?_, ?_, ?_, ?_, ?_⟩
  · intro r
    unfold insertChar
    dsimp only
    split_ifs <;> first | exact h | exact TAInv_taFinish _
  · unfold deleteChar
    dsimp only
    split_ifs <;> first | exact h | exact TAInv_taFinish _
  · unfold deleteForward
    dsimp only
    split_ifs <;>
      first | exact h | exact TAInv_clampCursorCol _ | exact TAInv_taFinish _
  · unfold moveCursorLeft
    dsimp only
    rw [TAInv_taEnsureCursorVisible]
    split_ifs <;>
      first
        | (exfalso; omega)
        | (simp_all [TAInv, lineAt, ← List.length_pos] <;> omega)
  · unfold moveCursorRight
    dsimp only
    split_ifs <;>
      first
        | exact h
        | exact TAInv_clampCursorCol _
        | (exfalso
           simp_all [TAInv, lineAt, ← List.length_pos] <;> omega)
        | (rw [TAInv_taEnsureCursorVisible]
           simp_all [TAInv, lineAt, ← List.length_pos] <;> omega)
  · unfold moveCursorUp
    split_ifs with h1
    · exact (TAInv_taEnsureCursorVisible _).mpr (TAInv_clampCursorCol _)
    · exact h
  · unfold moveCursorDown
    split_ifs with h1
    · exact (TAInv_taEnsureCursorVisible _).mpr (TAInv_clampCursorCol _)
    · exact h
  · intro text
    unfold setText
    dsimp only
    rw [TAInv_pipeline]
    have hsplit : ((replaceCRLF text).splitOn '\n') ≠ [] := by
      simp only [List.splitOn]
      exact List.splitOnP_ne_nil _ _
    rw [if_neg hsplit]
    unfold TAInv lineAt
    dsimp only
    refine ⟨hsplit, le_refl 0, ?_, le_refl 0, ?_⟩
    · exact_mod_cast List.length_pos.mpr hsplit
    · exact Int.natCast_nonneg _

/-- Witness for C10 at a two-line text area with the cursor at the end of
the first line. -/
theorem textArea_cursor_invariant_witness :
    TAInv ⟨5, [['a', 'b'], ['c']], 0, 2, 0, ⟨4, 0, 0, false⟩, true, 0, 4⟩ ∧
      TAInv (moveCursorLeft ⟨5, [['a', 'b'], ['c']], 0, 2, 0, ⟨4, 0, 0, false⟩, true, 0, 4⟩) ∧
      TAInv (deleteChar ⟨5, [['a', 'b'], ['c']], 0, 2, 0, ⟨4, 0, 0, false⟩, true, 0, 4⟩) := by
  have hinv : TAInv ⟨5, [['a', 'b'], ['c']], 0, 2, 0, ⟨4, 0, 0, false⟩, true, 0, 4⟩ := by
    unfold TAInv lineAt
    refine ⟨by decide, by decide, by decide, by decide, by decide⟩
  exact ⟨hinv,
    (textArea_cursor_invariant _ hinv).2.2.2.1,
    (textArea_cursor_invariant _ hinv).2.1⟩

/-- C7: `SetText` followed by `GetText` returns the input with every
CRLF normalised to LF (splitting on newlines and re-joining with
newlines is the identity). -/
theorem setText_getText_roundtrip (ta : TextAreaSt) (text : List Char) :
    getText (setText ta text) = replaceCRLF text := by
  unfold setText getText
  dsimp only
  rw [taEnsureCursorVisible_lines, taUpdateScrollState_lines, calculateCounts_lines]
  have hsplit : ((replaceCRLF text).splitOn '\n') ≠ [] := by
    simp [List.splitOn]
    exact List.splitOnP_ne_nil _ _
  rw [if_neg hsplit]
  exact List.intercalate_splitOn _ _

/-! ## Prompt (part_005 lines 2190-2556) and the Escape key

Prompt state relevant to key handling: its buttons' active flags, the
selected button index, the active and modal flags.  Button actions play
no role in the Escape path. -/

structure PromptSt where
  buttons : List Bool
  selectedIdx : Int
  isActive : Bool
  modal : Bool
  deriving Repr, DecidableEq

/-- `Prompt.SetActive` (lines 2299-2306): store the flag and reset every
button's active flag to "selected and prompt active". -/
def promptSetActive (p : PromptSt) (active : Bool) : PromptSt :=
  { p with
    isActive := active,
    buttons := p.buttons.mapIdx fun i _ => ((i : Int) == p.selectedIdx) && active }

/-- `Prompt.IsModal` (lines 2553-2556): modal and active. -/
def isModal (p : PromptSt) : Bool := p.modal && p.isActive

structure PromptWin where
  focus : FocusState
  prompt : PromptSt
  deriving Repr, DecidableEq

/-- The Escape case of the active-prompt branch of `Window.WindowActions`
(window.go lines 689-694): a non-modal prompt is deactivated and the
focus chain advances; a modal prompt ignores Escape entirely. -/
def promptEscapeKey (w : PromptWin) : PromptWin :=
  if isModal w.prompt then w
  else
    { prompt := promptSetActive w.prompt false,
      focus := setFocus w.focus (w.focus.focusedIndex + 1) }

/-- C5: while a prompt is modal and active, dispatching Escape leaves the
window's focus index unchanged and leaves the prompt active. -/
theorem modalPrompt_escape_noop (w : PromptWin)
    (hm : w.prompt.modal = true) (ha : w.prompt.isActive = true) :
    (promptEscapeKey w).focus.focusedIndex = w.focus.focusedIndex ∧
      (promptEscapeKey w).prompt.isActive = true := by
  unfold promptEscapeKey
  rw [if_pos (by simp [isModal, hm, ha])]
  exact ⟨rfl, ha⟩

/-- Witness for C5 at a two-entry focus chain and a modal active prompt
with two buttons. -/
theorem modalPrompt_escape_noop_witness :
    (⟨⟨[false, true], 1⟩, ⟨[true, false], 0, true, true⟩⟩ :
        PromptWin).prompt.modal = true ∧
      (⟨⟨[false, true], 1⟩, ⟨[true, false], 0, true, true⟩⟩ :
        PromptWin).prompt.isActive = true ∧
      (promptEscapeKey ⟨⟨[false, true], 1⟩, ⟨[true, false], 0, true, true⟩⟩).focus.focusedIndex =
        (⟨⟨[false, true], 1⟩, ⟨[true, false], 0, true, true⟩⟩ : PromptWin).focus.focusedIndex ∧
      (promptEscapeKey
          ⟨⟨[false, true], 1⟩, ⟨[true, false], 0, true, true⟩⟩).prompt.isActive = true := by
  refine ⟨rfl, rfl, ?_, ?_⟩
  · exact (modalPrompt_escape_noop ⟨⟨[false, true], 1⟩, ⟨[true, false], 0, true, true⟩⟩
      rfl rfl).1
  · exact (modalPrompt_escape_noop ⟨⟨[false, true], 1⟩, ⟨[true, false], 0, true, true⟩⟩
      rfl rfl).2

/-! ## Z-ordered compositing (`Window.getSortedElements`, window.go 402-423)

The compositor asks each element for the `ZIndexer` capability via a type
assertion; in the source only `*Menu` (100 top-level / 150 submenu) and
`*MenuBar` (100) have a `GetZIndex` method.  `*Prompt` carries a `zIndex`
field set to 1000 — "Prompts should appear above everything" — but has no
`GetZIndex` method, so the assertion fails and it sorts at the default 0.
Elements are tagged with their insertion position to express stability;
`sort.SliceStable` with `less = zi < zj` yields the unique stable order,
i.e. a stable merge sort with `≤` on the keys. -/

inductive ElemKind where
  | label
  | button
  | textBox
  | checkBox
  | spacer
  | radioButton
  | progressBar
  | scrollBar
  | container
  | textArea
  | menuBar
  | menu (isTopLevel : Bool)
  | prompt
  deriving Repr, DecidableEq

/-- The `ZIndexer` capability as the type assertion sees it: `some` for
the kinds with a `GetZIndex` method (`Menu.GetZIndex`, part_005 lines
1687-1693; `MenuBar.GetZIndex`, lines 2020-2023), `none` otherwise —
including `prompt`, which has no such method in the source. -/
def getZIndex? : ElemKind → Option Int
  | .menuBar => some 100
  | .menu true => some 100
  | .menu false => some 150
  | _ => none

/-- `Window.getSortedElements`: stable sort by z-index with default 0. -/
def getSortedElements (elements : List (ElemKind × Nat)) : List (ElemKind × Nat) :=
  elements.mergeSort fun a b =>
    decide ((getZIndex? a.1).getD 0 ≤ (getZIndex? b.1).getD 0)

lemma mergeSort_pair {α : Type} (le : α → α → Bool) (x y : α) :
    [x, y].mergeSort le = if le x y then [x, y] else [y, x] := by
  rw [List.mergeSort]
  simp [List.splitInTwo, List.merge]

/-- C2 failing input: a window holding a Prompt followed by a Label.  The
prompt exposes no z-index capability, sorts at the default 0, and paints
first — before the ordinary element — although MenuBar/Menu do report
100/150; the documented prompt z-index 1000 is never consulted. -/
theorem prompt_sorts_at_default_zindex :
    getZIndex? .prompt = none ∧
      getSortedElements [(.prompt, 0), (.label, 1)] = [(.prompt, 0), (.label, 1)] ∧
      (getZIndex? .menuBar).getD 0 = 100 ∧
      (getZIndex? (.menu false)).getD 0 = 150 ∧
      (getZIndex? (.menu true)).getD 0 = 100 ∧
      getSortedElements [(.menuBar, 0), (.label, 1)] = [(.label, 1), (.menuBar, 0)] := by
  refine ⟨rfl, ?_, rfl, rfl, rfl, ?_⟩ <;>
    (unfold getSortedElements; rw [mergeSort_pair]; decide)

/-! ## Menu subsystem (part_005 lines 1645-2188)

A `Menu` owns `Items`; an item may own a child `Menu`.  Item state
relevant to navigation: `IsActive` and the optional `SubMenu`; a leaf's
`Action` is modelled by its stored return value (`none` for a nil
action).  Menu state: `SelectedIdx`, `IsOpen`, `Items`.  The `MenuBar`'s
`ActiveMenu` pointer is modelled as the path of item indices leading from
the top-level menu to the active submenu (`none` when no submenu is
active).  Render geometry (`X`, `Y`, widths) is omitted. -/

mutual

inductive MenuItemT : Type where
  | mk (isActive : Bool) (action : Option Bool) (sub : Option MenuT) : MenuItemT

inductive MenuT : Type where
  | mk (selectedIdx : Int) (isOpen : Bool) (items : List MenuItemT) : MenuT

end

def MenuItemT.isActive : MenuItemT → Bool
  | .mk a _ _ => a

def MenuItemT.action : MenuItemT → Option Bool
  | .mk _ act _ => act

def MenuItemT.sub : MenuItemT → Option MenuT
  | .mk _ _ s => s

def MenuItemT.withActive : MenuItemT → Bool → MenuItemT
  | .mk _ act s, a => .mk a act s

def MenuItemT.withSub : MenuItemT → Option MenuT → MenuItemT
  | .mk a act _, s => .mk a act s

def MenuT.selIdx : MenuT → Int
  | .mk s _ _ => s

def MenuT.isOpen : MenuT → Bool
  | .mk _ o _ => o

def MenuT.items : MenuT → List MenuItemT
  | .mk _ _ its => its

def MenuT.withSel : MenuT → Int → MenuT
  | .mk _ o its, s => .mk s o its

def MenuT.withOpen : MenuT → Bool → MenuT
  | .mk s _ its, o => .mk s o its

def MenuT.withItems : MenuT → List MenuItemT → MenuT
  | .mk s o _, its => .mk s o its

/-- `m.Items[i].IsActive = b` (the index is always valid at the Go call
sites; out of range leaves the list unchanged). -/
def setItemActive (its : List MenuItemT) (i : Nat) (b : Bool) : List MenuItemT :=
  match its[i]? with
  | some it => its.set i (it.withActive b)
  | none => its

/-- `Menu.SelectPrevious` (lines 1788-1805): clear the current item's
active flag, decrement the selection wrapping to the last item, mark the
new item active. -/
def MenuT.selectPrevious (m : MenuT) : MenuT :=
  if m.items.length = 0 then m
  else
    let m :=
      if 0 ≤ m.selIdx ∧ m.selIdx < (m.items.length : Int) then
        m.withItems (setItemActive m.items m.selIdx.toNat false)
      else m
    let s := m.selIdx - 1
    let s := if s < 0 then (m.items.length : Int) - 1 else s
    (m.withSel s).withItems (setItemActive m.items s.toNat true)

/-- `Menu.SelectNext` (lines 1772-1786); Go's `%` truncates toward zero,
hence `Int.tmod`. -/
def MenuT.selectNext (m : MenuT) : MenuT :=
  if m.items.length = 0 then m
  else
    let m :=
      if 0 ≤ m.selIdx ∧ m.selIdx < (m.items.length : Int) then
        m.withItems (setItemActive m.items m.selIdx.toNat false)
      else m
    let s := Int.tmod (m.selIdx + 1) (m.items.length : Int)
    (m.withSel s).withItems (setItemActive m.items s.toNat true)

/-- Dereference the `ActiveMenu` path: descend through the submenu of
the `i`-th item at each step. -/
def menuAt : MenuT → List Nat → Option MenuT
  | m, [] => some m
  | m, i :: rest =>
    match m.items[i]? with
    | some it =>
      match it.sub with
      | some sub => menuAt sub rest
      | none => none
    | none => none

/-- Apply an in-place mutation to the menu at a path (the Go code
mutates through the `ActiveMenu` pointer; an invalid path — impossible
for a live pointer — leaves the tree unchanged). -/
def updateMenuAt : MenuT → List Nat → (MenuT → MenuT) → MenuT
  | m, [], f => f m
  | m, i :: rest, f =>
    match m.items[i]? with
    | some it =>
      match it.sub with
      | some sub => m.withItems (m.items.set i (it.withSub (some (updateMenuAt sub rest f))))
      | none => m
    | none => m

structure MenuBarSt where
  top : MenuT
  isActive : Bool
  activePath : Option (List Nat)

/-- Open the submenu `sub`: `IsOpen = true`, `SelectedIdx = 0`, first
item active if any (lines 2090-2094 and 1831-1835). -/
def openSub (sub : MenuT) : MenuT :=
  ((sub.withOpen true).withSel 0).withItems (setItemActive sub.items 0 true)

/-- `MenuBar.Activate` (lines 1987-1993). -/
def mbActivate (mb : MenuBarSt) : MenuBarSt :=
  let mb := { mb with isActive := true }
  if mb.top.selIdx < 0 ∧ 0 < mb.top.items.length then
    { mb with top := (mb.top.withSel 0).withItems (setItemActive mb.top.items 0 true) }
  else mb

/-- `MenuBar.MoveUp` (lines 2100-2116): inside an active submenu, move
the selection up if it is not at the first item; otherwise close that
submenu and clear the active-submenu pointer. -/
def mbMoveUp (mb : MenuBarSt) : MenuBarSt :=
  if ¬ mb.isActive then mb
  else
    match mb.activePath with
    | none => mb
    | some p =>
      match menuAt mb.top p with
      | none => mb
      | some am =>
        if am.selIdx > 0 then { mb with top := updateMenuAt mb.top p MenuT.selectPrevious }
        else
          { mb with
            top := updateMenuAt mb.top p (fun m => m.withOpen false),
            activePath := none }

/-- `MenuBar.MoveDown` (lines 2070-2098): inside a submenu, move the
selection down; at the top level, open the selected item's submenu. -/
def mbMoveDown (mb : MenuBarSt) : MenuBarSt :=
  if ¬ mb.isActive then mb
  else
    match mb.activePath with
    | some p => { mb with top := updateMenuAt mb.top p MenuT.selectNext }
    | none =>
      if 0 ≤ mb.top.selIdx ∧ mb.top.selIdx < (mb.top.items.length : Int) then
        match mb.top.items[mb.top.selIdx.toNat]? with
        | some it =>
          match it.sub with
          | some sub =>
            { mb with
              top := mb.top.withItems
                (mb.top.items.set mb.top.selIdx.toNat (it.withSub (some (openSub sub)))),
              activePath := some [mb.top.selIdx.toNat] }
          | none => mb
        | none => mb
      else mb

/-- `Menu.ActivateSelected` (lines 1807-1845): open the selected item's
submenu, or run its action and return the action's result. -/
def MenuT.activateSelected (m : MenuT) : MenuT × Bool :=
  if m.selIdx < 0 ∨ m.selIdx ≥ (m.items.length : Int) then (m, false)
  else
    match m.items[m.selIdx.toNat]? with
    | none => (m, false)
    | some it =>
      match it.sub with
      | some sub =>
        (m.withItems (m.items.set m.selIdx.toNat (it.withSub (some (openSub sub)))), false)
      | none =>
        match it.action with
        | some b => (m, b)
        | none => (m, false)

mutual

/-- `Menu.CloseSubMenus` (lines 1847-1855): recursively close every
submenu below this menu. -/
def closeMenuSubs : MenuT → MenuT
  | .mk s o its => .mk s o (closeItemsSubs its)

def closeItemsSubs : List MenuItemT → List MenuItemT
  | [] => []
  | it :: rest => closeItemSubs it :: closeItemsSubs rest

def closeItemSubs : MenuItemT → MenuItemT
  | .mk a act none => .mk a act none
  | .mk a act (some sub) => .mk a act (some ((closeMenuSubs sub).withOpen false))

end

/-- `MenuBar.Deactivate` (lines 1996-2008). -/
def mbDeactivate (mb : MenuBarSt) : MenuBarSt :=
  let top := mb.top
  let top :=
    if 0 ≤ top.selIdx ∧ top.selIdx < (top.items.length : Int) then
      top.withItems (setItemActive top.items top.selIdx.toNat false)
    else top
  let top := top.withSel (-1)
  let top := closeMenuSubs top
  { top := top, isActive := false, activePath := none }

/-- `MenuBar.ActivateSelected` (lines 2118-2171): activate in the active
submenu (or the top-level menu); on a close-signalling action deactivate
the whole bar, otherwise point `ActiveMenu` at a submenu the activation
just opened. -/
def mbActivateSelected (mb : MenuBarSt) : MenuBarSt × Bool :=
  if ¬ mb.isActive then (mb, false)
  else
    match mb.activePath with
    | some p =>
      match menuAt mb.top p with
      | none => (mb, false)
      | some cm =>
        let r := cm.activateSelected
        let mb1 := { mb with top := updateMenuAt mb.top p (fun _ => r.1) }
        if r.2 then (mbDeactivate mb1, true)
        else
          let newPath :=
            match menuAt mb1.top p with
            | some cm2 =>
              if 0 ≤ cm2.selIdx ∧ cm2.selIdx < (cm2.items.length : Int) then
                match cm2.items[cm2.selIdx.toNat]? with
                | some it =>
                  match it.sub with
                  | some sub => if sub.isOpen then some (p ++ [cm2.selIdx.toNat]) else some p
                  | none => some p
                | none => some p
              else some p
            | none => some p
          ({ mb1 with activePath := newPath }, false)
    | none =>
      let r := mb.top.activateSelected
      let mb1 := { mb with top := r.1 }
      if r.2 then (mbDeactivate mb1, true)
      else
        let newPath :=
          if 0 ≤ mb1.top.selIdx ∧ mb1.top.selIdx < (mb1.top.items.length : Int) then
            match mb1.top.items[mb1.top.selIdx.toNat]? with
            | some it =>
              match it.sub with
              | some sub => if sub.isOpen then some [mb1.top.selIdx.toNat] else none
              | none => none
            | none => none
          else none
        ({ mb1 with activePath := newPath }, false)

@[simp] lemma MenuT.withItems_selIdx (m : MenuT) (l : List MenuItemT) :
    (m.withItems l).selIdx = m.selIdx := by cases m; rfl

@[simp] lemma MenuT.withItems_isOpen (m : MenuT) (l : List MenuItemT) :
    (m.withItems l).isOpen = m.isOpen := by cases m; rfl

@[simp] lemma MenuT.withItems_items (m : MenuT) (l : List MenuItemT) :
    (m.withItems l).items = l := by cases m; rfl

@[simp] lemma MenuT.withSel_selIdx (m : MenuT) (s : Int) : (m.withSel s).selIdx = s := by
  cases m; rfl

@[simp] lemma MenuT.withSel_items (m : MenuT) (s : Int) : (m.withSel s).items = m.items := by
  cases m; rfl

@[simp] lemma MenuT.withSel_isOpen (m : MenuT) (s : Int) : (m.withSel s).isOpen = m.isOpen := by
  cases m; rfl

@[simp] lemma MenuT.withOpen_selIdx (m : MenuT) (o : Bool) : (m.withOpen o).selIdx = m.selIdx := by
  cases m; rfl

@[simp] lemma MenuT.withOpen_items (m : MenuT) (o : Bool) : (m.withOpen o).items = m.items := by
  cases m; rfl

@[simp] lemma MenuT.withOpen_isOpen (m : MenuT) (o : Bool) : (m.withOpen o).isOpen = o := by
  cases m; rfl

@[simp] lemma MenuItemT.withSub_sub (it : MenuItemT) (s : Option MenuT) :
    (it.withSub s).sub = s := by cases it; rfl

@[simp] lemma MenuItemT.withSub_isActive (it : MenuItemT) (s : Option MenuT) :
    (it.withSub s).isActive = it.isActive := by cases it; rfl

lemma menuAt_cons (m : MenuT) (i : Nat) (rest : List Nat) :
    menuAt m (i :: rest) =
      match m.items[i]? with
      | some it =>
        match it.sub with
        | some sub => menuAt sub rest
        | none => none
      | none => none := rfl

lemma updateMenuAt_selIdx (m : MenuT) (i : Nat) (rest : List Nat) (f : MenuT → MenuT) :
    (updateMenuAt m (i :: rest) f).selIdx = m.selIdx := by
  unfold updateMenuAt
  cases h : m.items[i]? with
  | none => rfl
  | some it =>
    dsimp only
    cases hs : it.sub with
    | none => rfl
    | some sub =>
      dsimp only
      simp

lemma menuAt_updateMenuAt_self (p : List Nat) (m am : MenuT) (f : MenuT → MenuT)
    (h : menuAt m p = some am) : menuAt (updateMenuAt m p f) p = some (f am) := by
  induction p generalizing m with
  | nil =>
    simp only [menuAt, Option.some.injEq] at h
    subst h
    simp [menuAt, updateMenuAt]
  | cons i rest ih =>
    rw [menuAt_cons] at h
    unfold updateMenuAt
    cases hit : m.items[i]? with
    | none => rw [hit] at h; simp at h
    | some it =>
      rw [hit] at h
      dsimp only at h ⊢
      cases hs : it.sub with
      | none => rw [hs] at h; simp at h
      | some sub =>
        rw [hs] at h
        dsimp only at h ⊢
        have hi : i < m.items.length := by
          by_contra hc
          rw [List.getElem?_eq_none (by omega)] at hit
          cases hit
        rw [menuAt_cons]
        simp only [MenuT.withItems_items, List.getElem?_set_self (by simpa using hi),
          MenuItemT.withSub_sub]
        exact ih sub h

lemma menuAt_updateMenuAt_parent (q : List Nat) (m : MenuT) (i : Nat) (f : MenuT → MenuT) :
    (menuAt (updateMenuAt m (q ++ [i]) f) q).map MenuT.selIdx =
      (menuAt m q).map MenuT.selIdx := by
  induction q generalizing m with
  | nil =>
    simp [menuAt, updateMenuAt_selIdx]
  | cons j q ih =>
    simp only [List.cons_append]
    unfold updateMenuAt
    cases hjt : m.items[j]? with
    | none => rfl
    | some it =>
      dsimp only
      cases hs : it.sub with
      | none => rfl
      | some sub =>
        dsimp only
        have hj : j < m.items.length := by
          by_contra hc
          rw [List.getElem?_eq_none (by omega)] at hjt
          cases hjt
        rw [menuAt_cons, menuAt_cons]
        simp only [MenuT.withItems_items, List.getElem?_set_self (by simpa using hj),
          MenuItemT.withSub_sub, hjt, hs]
        exact ih sub

lemma selectPrevious_selIdx (m : MenuT) (h0 : 0 < m.selIdx)
    (hlt : m.selIdx < (m.items.length : Int)) :
    (m.selectPrevious).selIdx = m.selIdx - 1 := by
  unfold MenuT.selectPrevious
  dsimp only
  rw [if_neg (by omega), if_pos ⟨by omega, hlt⟩]
  simp only [MenuT.withItems_selIdx, MenuT.withSel_selIdx]
  rw [if_neg (by simp; omega)]

/-- C4 counterexample scaffolding: a bar with one top-level item whose
submenu ("middle") contains an item owning a nested submenu ("inner").
`mbNested` is the state reached in the model by activating the bar,
opening the middle menu with Down, and opening the inner menu with
Enter — `ActiveMenu` is the inner menu at path `[0, 0]`, selection 0. -/
def menuLeaf : MenuItemT := .mk false (some false) none

def menuInner : MenuT := .mk (-1) false [menuLeaf, menuLeaf]

def menuMiddle : MenuT := .mk (-1) false [.mk false none (some menuInner), menuLeaf]

def menuTop : MenuT := .mk (-1) true [.mk false none (some menuMiddle)]

def mbNested : MenuBarSt :=
  (mbActivateSelected (mbMoveDown (mbActivate ⟨menuTop, false, none⟩))).1

/-- C4 counterexample: pressing Up while the nested inner submenu's
selection is at index 0 clears the active-submenu pointer entirely
(navigation returns to the top-level bar), instead of popping to the
parent level `[0]` (the middle menu) as the claim states. -/
theorem mbMoveUp_pops_to_top_counterexample :
    mbNested.activePath = some [0, 0] ∧
      (menuAt mbNested.top [0, 0]).map MenuT.selIdx = some 0 ∧
      (mbMoveUp mbNested).activePath = none ∧
      ¬ (mbMoveUp mbNested).activePath = some [0] := by
  refine ⟨by decide, by decide, by decide, by decide⟩

/-- C4 amended: with the bar active and `ActiveMenu` a submenu `am` at
path `p`, Up moves the selection up among siblings when it is not at the
first item; at the first item it closes that submenu (its own selection
and items untouched) and clears the active-submenu pointer — returning
navigation to the top-level bar, which coincides with the parent level
exactly when the submenu was opened directly from the bar — while the
top-level selection and the parent menu's selection stay exactly as they
were. -/
theorem mbMoveUp_c4_amended (mb : MenuBarSt) (p : List Nat) (am : MenuT)
    (hact : mb.isActive = true) (hpath : mb.activePath = some p)
    (hmenu : menuAt mb.top p = some am)
    (hsel : am.selIdx < (am.items.length : Int)) :
    (0 < am.selIdx →
      (mbMoveUp mb).activePath = some p ∧
        (menuAt (mbMoveUp mb).top p).map MenuT.selIdx = some (am.selIdx - 1)) ∧
      (am.selIdx = 0 →
        (mbMoveUp mb).activePath = none ∧
          menuAt (mbMoveUp mb).top p = some (am.withOpen false) ∧
          (mbMoveUp mb).top.selIdx = mb.top.selIdx ∧
          (∀ q i, p = q ++ [i] →
            (menuAt (mbMoveUp mb).top q).map MenuT.selIdx =
              (menuAt mb.top q).map MenuT.selIdx)) := by
  have hstep : mbMoveUp mb =
      if am.selIdx > 0 then { mb with top := updateMenuAt mb.top p MenuT.selectPrevious }
      else
        { mb with
          top := updateMenuAt mb.top p (fun m => m.withOpen false),
          activePath := none } := by
    unfold mbMoveUp
    rw [hact, hpath]
    simp [hmenu]
  constructor
  · intro hpos
    rw [hstep, if_pos hpos]
    refine ⟨hpath, ?_⟩
    have hm := menuAt_updateMenuAt_self p mb.top am MenuT.selectPrevious hmenu
    simp [hm, selectPrevious_selIdx am hpos hsel]
  · intro hzero
    rw [hstep, if_neg (by omega)]
    refine ⟨rfl, ?_, ?_, ?_⟩
    · exact menuAt_updateMenuAt_self p mb.top am _ hmenu
    · cases p with
      | nil =>
        simp only [menuAt, Option.some.injEq] at hmenu
        subst hmenu
        simp [updateMenuAt]
      | cons i rest => exact updateMenuAt_selIdx mb.top i rest _
    · intro q i hq
      subst hq
      exact menuAt_updateMenuAt_parent q mb.top i _

/-- Witness for C4 amended at `mbNested` (inner submenu open at path
`[0, 0]`, selection 0): Up closes the inner menu, clears the active
pointer, and preserves the middle menu's selection. -/
theorem mbMoveUp_c4_amended_witness :
    (mbNested.isActive = true ∧ mbNested.activePath = some [0, 0] ∧
        (menuAt mbNested.top [0, 0]).map MenuT.selIdx = some 0) ∧
      (mbMoveUp mbNested).activePath = none ∧
      (mbMoveUp mbNested).top.selIdx = mbNested.top.selIdx ∧
      (menuAt (mbMoveUp mbNested).top [0]).map MenuT.selIdx =
        (menuAt mbNested.top [0]).map MenuT.selIdx := by
  have hmenu : menuAt mbNested.top [0, 0] = some (openSub menuInner) := by rfl
  have h := mbMoveUp_c4_amended mbNested [0, 0] (openSub menuInner)
    (by decide) (by decide) hmenu (by decide)
  have h2 := h.2 (by decide)
  exact ⟨⟨by decide, by decide, by decide⟩, h2.1, h2.2.2.1, h2.2.2.2 [0] 0 rfl⟩

end WindowGo
